import Mathlib

/-!
Verification of the Kitty terminal adapter of Pokemon-Terminal
(`pokemonterminal/terminal/adapters/kitty.py`).

The Python module is shallowly embedded below.  Pure helpers become Lean
functions over `String`/`ℚ`; the pieces that touch the outside world
(environment variables, the filesystem, `subprocess.run`) are modelled by
explicit parameters and by traces of the operations performed, so that
every theorem is about what the code does, not about a mock.
-/

namespace Kitty

/-! ### String helpers modelling the Python primitives used by the module -/

/-- Python `str.lower()` restricted to ASCII input, character by
character. -/
def lowerStr (s : String) : String :=
  String.mk (s.data.map Char.toLower)

/-- Worker for `splitOnChar`, carrying the current piece reversed. -/
def splitOnCharAux (sep : Char) : List Char → List Char → List String
  | [], cur => [String.mk cur.reverse]
  | c :: cs, cur =>
    if c = sep then String.mk cur.reverse :: splitOnCharAux sep cs []
    else splitOnCharAux sep cs (c :: cur)

/-- Python `str.split(sep)` for a one-character separator: split at every
occurrence, keeping empty pieces. -/
def splitOnChar (sep : Char) (s : String) : List String :=
  splitOnCharAux sep s.data []

/-- Worker for `splitWS`, carrying the current word reversed. -/
def splitWSAux : List Char → List Char → List String
  | [], cur => if cur = [] then [] else [String.mk cur.reverse]
  | c :: cs, cur =>
    if c.isWhitespace then
      (if cur = [] then [] else [String.mk cur.reverse]) ++ splitWSAux cs []
    else splitWSAux cs (c :: cur)

/-- Python `str.split()` with no argument: split on whitespace runs and
drop empty pieces. -/
def splitWS (s : String) : List String :=
  splitWSAux s.data []

/-- Python `str.zfill(3)` on a digit string: left-pad with `'0'` up to
width 3 (also the behaviour of the format `f"{n:03d}"` for a `Nat`). -/
def zfill3 (s : String) : String :=
  if s.length ≥ 3 then s else (String.mk (List.replicate (3 - s.length) '0')) ++ s

/-- The id key produced by `f"{id_counter:03d}"`. -/
def fmt03 (n : Nat) : String :=
  zfill3 (toString n)

/-- Python `str.isdigit()` restricted to ASCII input: non-empty and all
characters are decimal digits. -/
def isdigitStr (s : String) : Bool :=
  s ≠ "" && s.toList.all Char.isDigit

/-- The final path component, as `pathlib.Path(p).name`: the last
non-empty `/`-separated piece (trailing and doubled slashes dropped). -/
def pyName (p : String) : String :=
  (((splitOnChar '/' p).filter (fun c => c ≠ "")).getLastD "")

/-- `pathlib.Path.suffix` of a file name: the part from the last dot on,
empty when the dot is the first character or the last one. -/
def pySuffixOfName (name : String) : String :=
  let cs := name.toList
  match (List.range cs.length).filter (fun i => cs.getD i ' ' = '.') |>.getLast? with
  | none => ""
  | some i => if 0 < i ∧ i < cs.length - 1 then String.mk (cs.drop i) else ""

/-- `pathlib.Path(p).suffix`. -/
def pySuffix (p : String) : String :=
  pySuffixOfName (pyName p)

/-- `pathlib.Path(p).stem`: the name with its suffix removed. -/
def pyStem (p : String) : String :=
  let n := pyName p
  String.mk (n.toList.take (n.length - (pySuffixOfName n).length))

/-! ### The two palette constants (`LIGHT_BG_PALETTE`, `DARK_BG_PALETTE`)

Python dicts with fixed distinct keys are embedded as association lists in
insertion order. -/

def LIGHT_BG_PALETTE : List (String × String) :=
  [("foreground", "#111111"),
   ("cursor", "#111111"),
   ("selection_foreground", "#111111"),
   ("selection_background", "#d6d6d6"),
   ("color0", "#111111"),
   ("color1", "#8f1d21"),
   ("color2", "#1f7a32"),
   ("color3", "#6b5800"),
   ("color4", "#004f95"),
   ("color5", "#6a2e8a"),
   ("color6", "#006c79"),
   ("color7", "#8f8f8f"),
   ("color8", "#4d4d4d"),
   ("color9", "#b33a3f"),
   ("color10", "#2f9951"),
   ("color11", "#8c7300"),
   ("color12", "#2a73ba"),
   ("color13", "#8d3ab5"),
   ("color14", "#008b9c"),
   ("color15", "#111111")]

def DARK_BG_PALETTE : List (String × String) :=
  [("foreground", "#f0f0f0"),
   ("cursor", "#f0f0f0"),
   ("selection_foreground", "#111111"),
   ("selection_background", "#f0f0f0"),
   ("color0", "#1a1a1a"),
   ("color1", "#ff6b6b"),
   ("color2", "#8ce99a"),
   ("color3", "#ffd43b"),
   ("color4", "#74c0fc"),
   ("color5", "#d0bfff"),
   ("color6", "#66d9e8"),
   ("color7", "#dee2e6"),
   ("color8", "#6c757d"),
   ("color9", "#ff8787"),
   ("color10", "#b2f2bb"),
   ("color11", "#ffe066"),
   ("color12", "#a5d8ff"),
   ("color13", "#e5dbff"),
   ("color14", "#99e9f2"),
   ("color15", "#ffffff")]

/-! ### Threshold table and its loader (`_load_dark_thresholds`)

Brightness scores (Python floats in `[0,1]`) are embedded as `ℚ`.
`float(tok)` is an external primitive and is passed in as a partial
parsing function.  The two dicts are embedded as association lists in
insertion order; duplicate name keys keep every insertion and lookups
take the last one, matching dict overwrite semantics. -/

structure ThresholdTable where
  by_id : List (String × ℚ)
  by_name : List (String × ℚ)
deriving DecidableEq, Repr

/-- Python `dict.get(k, default)` over an insertion list: the most recent
binding of `k` wins. -/
def dictGetD (l : List (String × ℚ)) (k : String) (d : ℚ) : ℚ :=
  match l.reverse.find? (fun kv => kv.1 = k) with
  | some kv => kv.2
  | none => d

/-- The loop body of `_load_dark_thresholds` over the remaining dataset
lines, carrying the current value of `id_counter`. -/
def loadThresholdLines (parseFloat : String → Option ℚ) :
    Nat → List String → ThresholdTable
  | _, [] => ⟨[], []⟩
  | ctr, line :: rest =>
    match splitWS line with
    | tok0 :: tok1 :: _ =>
      match parseFloat tok1 with
      | some threshold =>
        let t := loadThresholdLines parseFloat (ctr + 1) rest
        ⟨(fmt03 ctr, threshold) :: t.by_id,
         (lowerStr tok0, threshold) :: t.by_name⟩
      | none => loadThresholdLines parseFloat ctr rest
    | _ => loadThresholdLines parseFloat ctr rest

/-- `_load_dark_thresholds`: parse the dataset (given as its lines) into
the two lookup structures, with `id_counter` starting at 1.  The
`lru_cache` memoisation only affects how often the file is read, not the
resulting value, so it is not part of the functional model. -/
def load_dark_thresholds (parseFloat : String → Option ℚ) (lines : List String) :
    ThresholdTable :=
  loadThresholdLines parseFloat 1 lines

/-! ### Brightness classifier (`_infer_dark_threshold`) -/

/-- `_infer_dark_threshold(path)`, with the loaded table passed
explicitly. -/
def infer_dark_threshold (tbl : ThresholdTable) (path : String) : ℚ :=
  let stem := lowerStr (pyStem path)
  if isdigitStr stem then
    dictGetD tbl.by_id (zfill3 stem) (1/2)
  else
    let stem := if stem.data.contains '-' then (splitOnChar '-' stem).headD "" else stem
    dictGetD tbl.by_name stem (1/2)

/-! ### Palette selection (`_palette_for_threshold`, `_palette_for_path`) -/

/-- `_palette_for_threshold`: the Python comparison `threshold >= 0.65`
(the literal `0.65` embedded as the rational `13/20`). -/
def palette_for_threshold (threshold : ℚ) : List (String × String) :=
  if threshold ≥ 13/20 then LIGHT_BG_PALETTE else DARK_BG_PALETTE

/-- `_palette_for_path`, with the environment read
`os.environ.get("POKEMON_TERMINAL_KITTY_TEXT_MODE", "auto")` passed in as
an `Option String` (`none` = variable unset). -/
def palette_for_path (envTextMode : Option String) (tbl : ThresholdTable)
    (path : String) : List (String × String) :=
  let text_mode := lowerStr (envTextMode.getD "auto")
  if text_mode = "light" then DARK_BG_PALETTE
  else if text_mode = "dark" then LIGHT_BG_PALETTE
  else palette_for_threshold (infer_dark_threshold tbl path)

/-! ### Image conversion with content-addressed cache
(`_cached_png_path`, `_convert_to_png`)

The filesystem and `subprocess.run` are external; a `ConvEnv` fixes what
they would answer (does the source stat succeed and with which identity,
does the cache target already exist, which temporary name is handed out,
does the converter process succeed), and the functions additionally
return the trace of operations they perform, in order. -/

/-- Outcome of one `subprocess.run(..., check=True)` call:
success, `CalledProcessError` (non-zero exit, with captured stderr), or
an OS-level launch failure such as `FileNotFoundError`. -/
inductive RunRes where
  | ok
  | cpe (stderr : String)
  | osErr
deriving DecidableEq, Repr

/-- Exceptions that can escape the embedded functions. -/
inductive PyExc where
  | fileNotFound
  | osError
deriving DecidableEq, Repr

/-- Filesystem / process operations performed by the conversion
pipeline, in order. -/
inductive FsOp where
  | mkdirCacheRoot
  | statSrc
  | lookupTarget
  | createTmp (name : String)
  | runConv (cmd : List String)
  | replaceTmpWithTarget (tmp target : String)
  | unlinkTmp (name : String)
deriving DecidableEq, Repr

/-- What the outside world answers during one conversion. -/
structure ConvEnv where
  /-- `Path.home()`. -/
  home : String
  /-- `src.stat()`: `none` means the source file does not exist and the
  stat raises `FileNotFoundError`; otherwise `(st_mtime_ns, st_size)`. -/
  stat : Option (Nat × Nat)
  /-- `src.resolve()` (resolving never raises for a missing file). -/
  resolved : String
  /-- The SHA-1 hex digest, as a function of the key string (an external
  primitive; any function of the key). -/
  sha1hex : String → String
  /-- Whether `target.exists()` holds when queried. -/
  targetExists : Bool
  /-- The name `tempfile.NamedTemporaryFile` hands out. -/
  tmpName : String
  /-- `sys.platform == "darwin"`. -/
  darwin : Bool
  /-- Outcome of the external converter invocation. -/
  convRes : RunRes

/-- The fixed cache directory
`Path.home() / ".cache" / "pokemon-terminal" / "kitty-images"`. -/
def cacheRoot (env : ConvEnv) : String :=
  env.home ++ "/.cache/pokemon-terminal/kitty-images"

/-- `_cached_png_path`: make the cache directory, stat the source (this
raises when the source is missing — there is no handler here), and build
the SHA-1-named target path from `resolved:mtime_ns:size`. -/
def cached_png_path (env : ConvEnv) (_path : String) :
    Except PyExc String × List FsOp :=
  match env.stat with
  | none => (.error .fileNotFound, [.mkdirCacheRoot, .statSrc])
  | some (mtimeNs, size) =>
    let key := env.resolved ++ ":" ++ toString mtimeNs ++ ":" ++ toString size
    (.ok (cacheRoot env ++ "/" ++ env.sha1hex key ++ ".png"),
     [.mkdirCacheRoot, .statSrc])

/-- The converter command line built by `_convert_to_png`. -/
def convCmd (env : ConvEnv) (path : String) : List String :=
  if env.darwin then
    ["sips", "-s", "format", "png", path, "--out", env.tmpName]
  else
    ["magick", path, env.tmpName]

/-- `_convert_to_png`: `.png` sources pass through untouched; otherwise
look up the cache, and on a miss convert into a fresh temporary file and
publish it with an atomic rename, falling back to the original path when
the converter fails (`CalledProcessError` or `OSError` are both caught;
the temporary file is unlinked). -/
def convert_to_png (env : ConvEnv) (path : String) :
    Except PyExc String × List FsOp :=
  if lowerStr (pySuffix path) = ".png" then
    (.ok path, [])
  else
    match cached_png_path env path with
    | (.error e, ops) => (.error e, ops)
    | (.ok target, ops) =>
      if env.targetExists then
        (.ok target, ops ++ [.lookupTarget])
      else
        let ops := ops ++ [.lookupTarget, .createTmp env.tmpName]
        let cmd := convCmd env path
        match env.convRes with
        | .ok =>
          (.ok target, ops ++ [.runConv cmd, .replaceTmpWithTarget env.tmpName target])
        | .cpe _ =>
          (.ok path, ops ++ [.runConv cmd, .unlinkTmp env.tmpName])
        | .osErr =>
          (.ok path, ops ++ [.runConv cmd, .unlinkTmp env.tmpName])

/-- Temporary files still on disk after a trace: created and neither
renamed away nor unlinked. -/
def leftoverTmps (ops : List FsOp) : List String :=
  ops.foldl
    (fun acc op =>
      match op with
      | .createTmp n => acc ++ [n]
      | .unlinkTmp n => acc.filter (fun m => m ≠ n)
      | .replaceTmpWithTarget n _ => acc.filter (fun m => m ≠ n)
      | _ => acc)
    []

/-- Whether a trace invokes the external converter at all. -/
def invokesConverter (ops : List FsOp) : Bool :=
  ops.any (fun op => match op with | .runConv _ => true | _ => false)

/-! ### The adapter (`KittyProvider.change_terminal`, `KittyProvider.clear`)

The two kitty control-channel calls are external; their outcomes are
passed in as `RunRes` values.  The result records whether an exception
escaped, the conversion trace, and the ordered trace of kitty calls and
printed lines. -/

/-- Observable adapter events: a `run(["kitty", "@", ...])` invocation,
or a line printed to stdout. -/
inductive KEvent where
  | kittyCall (args : List String)
  | printed (line : String)
deriving DecidableEq, Repr

/-- `print_kitty_error(err, action)`: the fixed diagnostic line, plus the
captured stderr when it is non-empty (the walrus `if msg := err.stderr`
is falsy for empty output). -/
def print_kitty_error (stderr : String) (action : String) : List String :=
  [s!"Failed to {action} in kitty. Did you configure kitty remote control correctly? (See Readme)."]
    ++ (if stderr ≠ "" then [s!"Output from kitty: \x22{stderr}\x22."] else [])

/-- The diagnostic events produced by one handled `CalledProcessError`. -/
def printedErr (stderr : String) (action : String) : List KEvent :=
  (print_kitty_error stderr action).map .printed

/-- `KittyProvider.change_terminal(path)`: convert the image (errors from
conversion are not handled here), send `set-background-image`; on
`CalledProcessError` print the diagnostic and return — the colors command
is not reached.  On success compute the palette and send `set-colors`;
its `CalledProcessError` is printed.  OS-level launch failures of either
`run` are not caught and escape. -/
def change_terminal (cenv : ConvEnv) (bg colors : RunRes)
    (envTextMode : Option String) (tbl : ThresholdTable) (path : String) :
    Except PyExc Unit × List FsOp × List KEvent :=
  match convert_to_png cenv path with
  | (.error e, ops) => (.error e, ops, [])
  | (.ok image_for_kitty, ops) =>
    let bgCall := KEvent.kittyCall ["kitty", "@", "set-background-image", image_for_kitty]
    match bg with
    | .osErr => (.error .osError, ops, [bgCall])
    | .cpe msg => (.ok (), ops, [bgCall] ++ printedErr msg "set background image")
    | .ok =>
      let palette := palette_for_path envTextMode tbl path
      let color_args := palette.map (fun kv => kv.1 ++ "=" ++ kv.2)
      let colorsCall := KEvent.kittyCall (["kitty", "@", "set-colors"] ++ color_args)
      match colors with
      | .osErr => (.error .osError, ops, [bgCall, colorsCall])
      | .cpe msg => (.ok (), ops, [bgCall, colorsCall] ++ printedErr msg "set adaptive colors")
      | .ok => (.ok (), ops, [bgCall, colorsCall])

/-- `KittyProvider.clear()`: remove the background image, then reset the
colors; each `CalledProcessError` is printed independently and does not
stop the other command, but an OS-level launch failure escapes. -/
def clear (bg colors : RunRes) : Except PyExc Unit × List KEvent :=
  let bgCall := KEvent.kittyCall ["kitty", "@", "set-background-image", "none"]
  match bg with
  | .osErr => (.error .osError, [bgCall])
  | first =>
    let firstEvents :=
      match first with
      | .cpe msg => [bgCall] ++ printedErr msg "clear background image"
      | _ => [bgCall]
    let colorsCall := KEvent.kittyCall ["kitty", "@", "set-colors", "--reset"]
    match colors with
    | .osErr => (.error .osError, firstEvents ++ [colorsCall])
    | .cpe msg => (.ok (), firstEvents ++ [colorsCall] ++ printedErr msg "reset colors")
    | .ok => (.ok (), firstEvents ++ [colorsCall])

/-- Whether an event is a `set-colors` control-channel call. -/
def isSetColorsCall : KEvent → Bool
  | .kittyCall args => args.take 3 = ["kitty", "@", "set-colors"]
  | .printed _ => false

/-- Whether a trace contains a `set-colors` control-channel call. -/
def callsSetColors (evs : List KEvent) : Bool :=
  evs.any isSetColorsCall

/-! ### Auxiliary specification vocabulary used by the theorems -/

/-- A dataset line the loader keeps: it splits into at least two
whitespace tokens and the second token parses as a float. -/
def goodLine (parseFloat : String → Option ℚ) (line : String) : Bool :=
  match splitWS line with
  | _ :: tok1 :: _ => (parseFloat tok1).isSome
  | _ => false

/-- The brightness score carried by a kept dataset line. -/
def lineScore (parseFloat : String → Option ℚ) (line : String) : ℚ :=
  match splitWS line with
  | _ :: tok1 :: _ => (parseFloat tok1).getD 0
  | _ => 0

/-- The lowercased name key carried by a dataset line. -/
def lineName (line : String) : String :=
  match splitWS line with
  | tok0 :: _ => lowerStr tok0
  | _ => ""

/-- The fixed first diagnostic line printed for a handled
`CalledProcessError`. -/
def failLine (action : String) : String :=
  s!"Failed to {action} in kitty. Did you configure kitty remote control correctly? (See Readme)."

/-- A concrete conversion environment used to instantiate theorems with
hypotheses: the source exists, the cache is cold, and the converter
succeeds. -/
def sampleEnv : ConvEnv where
  home := "/home/u"
  stat := some (1111, 2222)
  resolved := "/imgs/025.jpg"
  sha1hex := fun key => key
  targetExists := false
  tmpName := "/home/u/.cache/pokemon-terminal/kitty-images/tmp1.png"
  darwin := false
  convRes := .ok

/-- The float-parsing behaviour assumed on the tokens appearing in the
concrete datasets below. -/
def sampleParse : String → Option ℚ :=
  fun s => if s = "0.82" then some (41/50) else if s = "0.5" then some (1/2) else none

/-- A concrete dataset: 24 well-formed filler lines followed by
`"pikachu 0.82"`, so that pikachu receives id `"025"`. -/
def pikachuLines : List String :=
  ((List.range 24).map (fun i => "name" ++ toString i ++ " 0.5")) ++ ["pikachu 0.82"]

/-! ## Theorems -/

/-- Helper: the cache-key computation raises `FileNotFoundError` when the
source stat fails, after the `mkdir`. -/
theorem cached_png_path_of_stat_none (env : ConvEnv) (path : String)
    (h : env.stat = none) :
    cached_png_path env path = (.error .fileNotFound, [.mkdirCacheRoot, .statSrc]) := by
  unfold cached_png_path
  rw [h]

/-- Helper: the cache-key computation succeeds when the source stat
succeeds, returning the SHA-1-named target. -/
theorem cached_png_path_of_stat_some (env : ConvEnv) (path : String)
    (mtimeNs size : Nat) (h : env.stat = some (mtimeNs, size)) :
    cached_png_path env path =
      (.ok (cacheRoot env ++ "/"
          ++ env.sha1hex (env.resolved ++ ":" ++ toString mtimeNs ++ ":" ++ toString size)
          ++ ".png"),
       [.mkdirCacheRoot, .statSrc]) := by
  unfold cached_png_path
  rw [h]

/-- Helper: `palette_for_path` written out as nested conditionals. -/
theorem palette_for_path_eq (o : Option String) (tbl : ThresholdTable) (path : String) :
    palette_for_path o tbl path =
      (if lowerStr (o.getD "auto") = "light" then DARK_BG_PALETTE
       else if lowerStr (o.getD "auto") = "dark" then LIGHT_BG_PALETTE
       else palette_for_threshold (infer_dark_threshold tbl path)) := rfl

/-- Helper: `palette_for_threshold` written out as a conditional. -/
theorem palette_for_threshold_eq (t : ℚ) :
    palette_for_threshold t =
      (if t ≥ 13/20 then LIGHT_BG_PALETTE else DARK_BG_PALETTE) := rfl

/-- Claim C4: for every threshold table and every path, palette selection
with override "dark" (case-insensitive) returns the light-background
(dark-text) palette, override "light" returns the dark-background
(light-text) palette, and any other override value, including "auto",
falls through to the brightness-based rule. -/
theorem C4_override_precedence (o : Option String) (tbl : ThresholdTable) (path : String) :
    (lowerStr (o.getD "auto") = "dark" →
        palette_for_path o tbl path = LIGHT_BG_PALETTE) ∧
    (lowerStr (o.getD "auto") = "light" →
        palette_for_path o tbl path = DARK_BG_PALETTE) ∧
    (lowerStr (o.getD "auto") ≠ "dark" → lowerStr (o.getD "auto") ≠ "light" →
        palette_for_path o tbl path
          = palette_for_threshold (infer_dark_threshold tbl path)) := by
  refine ⟨fun h => ?_, fun h => ?_, fun h1 h2 => ?_⟩
  · simp [palette_for_path, h]
  · simp [palette_for_path, h]
  · simp [palette_for_path, h1, h2]

/-- Witness for C4 at the overrides "DaRk", "Light" and "auto". -/
theorem C4_override_precedence_witness :
    palette_for_path (some "DaRk") ⟨[], []⟩ "x.jpg" = LIGHT_BG_PALETTE ∧
    palette_for_path (some "Light") ⟨[], []⟩ "x.jpg" = DARK_BG_PALETTE ∧
    palette_for_path (some "auto") ⟨[], []⟩ "x.jpg"
      = palette_for_threshold (infer_dark_threshold ⟨[], []⟩ "x.jpg") :=
  ⟨(C4_override_precedence (some "DaRk") ⟨[], []⟩ "x.jpg").1 (by decide),
   (C4_override_precedence (some "Light") ⟨[], []⟩ "x.jpg").2.1 (by decide),
   (C4_override_precedence (some "auto") ⟨[], []⟩ "x.jpg").2.2 (by decide) (by decide)⟩

/-- Claim C5: for every brightness score b, selection under override
"auto" returns the light-background palette iff b ≥ 0.65; in particular a
dataset line "pikachu 0.82" classifies "pikachu.jpg" to the
light-background palette, whose foreground entry is "#111111". -/
theorem C5_auto_threshold_rule (b : ℚ) (parseFloat : String → Option ℚ)
    (hp : parseFloat "0.82" = some (41/50)) :
    (palette_for_threshold b = LIGHT_BG_PALETTE ↔ 13/20 ≤ b) ∧
    palette_for_path (some "auto")
        (load_dark_thresholds parseFloat ["pikachu 0.82"]) "pikachu.jpg"
      = LIGHT_BG_PALETTE ∧
    LIGHT_BG_PALETTE.lookup "foreground" = some "#111111" := by
  have htbl : load_dark_thresholds parseFloat ["pikachu 0.82"]
      = ⟨[("001", 41/50)], [("pikachu", 41/50)]⟩ := by
    have hs : splitWS "pikachu 0.82" = ["pikachu", "0.82"] := by decide
    have h1 : fmt03 1 = "001" := by decide
    have h2 : lowerStr "pikachu" = "pikachu" := by decide
    simp only [load_dark_thresholds, loadThresholdLines, hs, hp, h1, h2]
  refine ⟨⟨fun h => ?_, fun h => ?_⟩, ?_, by decide⟩
  · by_contra hb
    rw [palette_for_threshold_eq, if_neg hb] at h
    exact absurd h (by decide)
  · rw [palette_for_threshold_eq, if_pos h]
  · rw [htbl]
    have hinf : infer_dark_threshold ⟨[("001", 41/50)], [("pikachu", 41/50)]⟩ "pikachu.jpg"
        = 41/50 := rfl
    rw [palette_for_path_eq, if_neg (by decide), if_neg (by decide), hinf,
      palette_for_threshold_eq, if_pos (by norm_num)]

/-- Witness for C5 at b = 41/50 and the sample parsing function. -/
theorem C5_auto_threshold_rule_witness :
    sampleParse "0.82" = some (41/50) ∧
    ((palette_for_threshold (41/50) = LIGHT_BG_PALETTE ↔ 13/20 ≤ (41/50 : ℚ)) ∧
     palette_for_path (some "auto")
         (load_dark_thresholds sampleParse ["pikachu 0.82"]) "pikachu.jpg"
       = LIGHT_BG_PALETTE ∧
     LIGHT_BG_PALETTE.lookup "foreground" = some "#111111") :=
  ⟨rfl, C5_auto_threshold_rule (41/50) sampleParse rfl⟩

/-- Claim C8: for every source path whose extension is .png
(case-insensitive), convert returns the source path unchanged and
performs no operation at all — no cache lookup and no filesystem cache
writes. -/
theorem C8_png_passthrough (env : ConvEnv) (path : String)
    (h : lowerStr (pySuffix path) = ".png") :
    convert_to_png env path = (.ok path, []) := by
  unfold convert_to_png
  rw [if_pos h]

/-- Witness for C8 at the upper-case extension "/a/b.PNG". -/
theorem C8_png_passthrough_witness :
    lowerStr (pySuffix "/a/b.PNG") = ".png" ∧
    convert_to_png sampleEnv "/a/b.PNG" = (.ok "/a/b.PNG", []) :=
  ⟨by decide, C8_png_passthrough sampleEnv "/a/b.PNG" (by decide)⟩

/-- Counterexample to claim C1: at a concrete input where the
set-background-image command fails with CalledProcessError,
change_terminal issues the background-image call, returns normally, and
never attempts the set-colors command — the two commands are not
independent in change_terminal. -/
theorem C1_counterexample :
    (change_terminal sampleEnv (.cpe "boom") .ok none ⟨[], []⟩ "/a/b.png").1 = .ok () ∧
    KEvent.kittyCall ["kitty", "@", "set-background-image", "/a/b.png"]
      ∈ (change_terminal sampleEnv (.cpe "boom") .ok none ⟨[], []⟩ "/a/b.png").2.2 ∧
    callsSetColors
      (change_terminal sampleEnv (.cpe "boom") .ok none ⟨[], []⟩ "/a/b.png").2.2
      = false := by
  refine ⟨rfl, ?_, rfl⟩
  decide

/-- Claim C1 (amended): for every path, if the set-background-image
control-channel call fails with CalledProcessError, change_terminal
prints the diagnostic and returns normally without attempting the
set-colors command. -/
theorem C1_amended_bg_failure_skips_colors (cenv : ConvEnv) (msg : String)
    (colors : RunRes) (tm : Option String) (tbl : ThresholdTable)
    (path img : String)
    (hconv : (convert_to_png cenv path).1 = .ok img) :
    (change_terminal cenv (.cpe msg) colors tm tbl path).1 = .ok () ∧
    KEvent.printed (failLine "set background image")
      ∈ (change_terminal cenv (.cpe msg) colors tm tbl path).2.2 ∧
    callsSetColors (change_terminal cenv (.cpe msg) colors tm tbl path).2.2
      = false := by
  rcases hcp : convert_to_png cenv path with ⟨r, ops⟩
  rw [hcp] at hconv
  simp only at hconv
  subst hconv
  simp [change_terminal, hcp, printedErr, print_kitty_error, failLine,
    callsSetColors, isSetColorsCall]

/-- Witness for the amended C1 at a concrete CalledProcessError. -/
theorem C1_amended_bg_failure_skips_colors_witness :
    (change_terminal sampleEnv (.cpe "no remote control") .ok none ⟨[], []⟩
        "/a/b.png").1 = .ok () ∧
    KEvent.printed (failLine "set background image")
      ∈ (change_terminal sampleEnv (.cpe "no remote control") .ok none ⟨[], []⟩
          "/a/b.png").2.2 ∧
    callsSetColors
      (change_terminal sampleEnv (.cpe "no remote control") .ok none ⟨[], []⟩
          "/a/b.png").2.2 = false :=
  C1_amended_bg_failure_skips_colors sampleEnv "no remote control" .ok none ⟨[], []⟩
    "/a/b.png" "/a/b.png" rfl

/-- Counterexample to claim C2: at a concrete input where the kitty tool
is missing (an OS-level launch failure rather than CalledProcessError),
clear propagates the exception instead of returning normally. -/
theorem C2_counterexample :
    (clear RunRes.osErr RunRes.ok).1 = Except.error PyExc.osError ∧
    (clear RunRes.osErr RunRes.ok).1 ≠ Except.ok () :=
  ⟨rfl, fun h => Except.noConfusion h⟩

/-- Claim C2 (amended): for CalledProcessError failures (non-zero exit of
the kitty tool) change_terminal and clear print a diagnostic, abandon
only that command, and return normally; an OS-level launch failure is
not caught and propagates. -/
theorem C2_amended_cpe_contained (cenv : ConvEnv) (bg colors : RunRes)
    (tm : Option String) (tbl : ThresholdTable) (path img : String)
    (hconv : (convert_to_png cenv path).1 = .ok img)
    (hbg : bg ≠ .osErr) (hcolors : colors ≠ .osErr) :
    (change_terminal cenv bg colors tm tbl path).1 = .ok () ∧
    (∀ msg, bg = .cpe msg →
      KEvent.printed (failLine "set background image")
        ∈ (change_terminal cenv bg colors tm tbl path).2.2) ∧
    (clear bg colors).1 = .ok () ∧
    (∀ msg, bg = .cpe msg →
      KEvent.printed (failLine "clear background image") ∈ (clear bg colors).2) := by
  rcases hcp : convert_to_png cenv path with ⟨r, ops⟩
  rw [hcp] at hconv
  simp only at hconv
  subst hconv
  cases bg with
  | osErr => exact absurd rfl hbg
  | ok =>
    cases colors with
    | osErr => exact absurd rfl hcolors
    | ok =>
      simp [change_terminal, clear, hcp, printedErr, print_kitty_error, failLine]
    | cpe m =>
      simp [change_terminal, clear, hcp, printedErr, print_kitty_error, failLine]
  | cpe m =>
    cases colors with
    | osErr => exact absurd rfl hcolors
    | ok =>
      simp [change_terminal, clear, hcp, printedErr, print_kitty_error, failLine]
    | cpe m2 =>
      simp [change_terminal, clear, hcp, printedErr, print_kitty_error, failLine]

/-- Witness for the amended C2 at concrete CalledProcessError outcomes. -/
theorem C2_amended_cpe_contained_witness :
    (change_terminal sampleEnv (.cpe "bad") (.cpe "bad2") none ⟨[], []⟩
        "/a/b.png").1 = .ok () ∧
    (∀ msg, RunRes.cpe "bad" = .cpe msg →
      KEvent.printed (failLine "set background image")
        ∈ (change_terminal sampleEnv (.cpe "bad") (.cpe "bad2") none ⟨[], []⟩
            "/a/b.png").2.2) ∧
    (clear (.cpe "bad") (.cpe "bad2")).1 = .ok () ∧
    (∀ msg, RunRes.cpe "bad" = .cpe msg →
      KEvent.printed (failLine "clear background image")
        ∈ (clear (.cpe "bad") (.cpe "bad2")).2) :=
  C2_amended_cpe_contained sampleEnv (.cpe "bad") (.cpe "bad2") none ⟨[], []⟩
    "/a/b.png" "/a/b.png" rfl (fun h => RunRes.noConfusion h)
    (fun h => RunRes.noConfusion h)

/-- Counterexample to claim C3: over the table loaded from a dataset
whose 25th kept line is "pikachu 0.82", classify of a path with stem
"025-alt" truncates to "025" but performs a by-name lookup and returns
the 0.5 default, while classify of a path with stem "025" performs a
by-id lookup and returns 0.82 — the two values differ. -/
theorem C3_counterexample :
    infer_dark_threshold (load_dark_thresholds sampleParse pikachuLines)
        "/imgs/025-alt.jpg" = 1/2 ∧
    infer_dark_threshold (load_dark_thresholds sampleParse pikachuLines)
        "/imgs/025.jpg" = 41/50 ∧
    ((1 : ℚ)/2) ≠ 41/50 :=
  ⟨rfl, rfl, by norm_num⟩

/-- Claim C3 (amended): for a path whose filename stem is "025-alt",
classify truncates the stem at the first hyphen per the hyphen rule and
performs a by-name lookup of "025" (default 0.5); it returns the same
brightness value as classify on a path with stem "025" (a by-id lookup
of "025") exactly when the two lookups agree. -/
theorem C3_amended_hyphen_by_name (tbl : ThresholdTable) (p q : String)
    (hp : lowerStr (pyStem p) = "025-alt") (hq : lowerStr (pyStem q) = "025")
    (h : dictGetD tbl.by_name "025" (1/2) = dictGetD tbl.by_id "025" (1/2)) :
    infer_dark_threshold tbl p = dictGetD tbl.by_name "025" (1/2) ∧
    infer_dark_threshold tbl p = infer_dark_threshold tbl q := by
  have hsp : (splitOnChar '-' "025-alt").headD "" = "025" := by decide
  have e1 : infer_dark_threshold tbl p = dictGetD tbl.by_name "025" (1/2) := by
    simp only [infer_dark_threshold, hp]
    rw [if_neg (by decide), if_pos (by decide), hsp]
  have e2 : infer_dark_threshold tbl q = dictGetD tbl.by_id "025" (1/2) := by
    simp only [infer_dark_threshold, hq]
    rw [if_pos (by decide)]
    have hz : zfill3 "025" = "025" := by decide
    rw [hz]
  exact ⟨e1, by rw [e1, e2, h]⟩

/-- Witness for the amended C3 at the empty table, where both lookups
default to 0.5. -/
theorem C3_amended_hyphen_by_name_witness :
    infer_dark_threshold ⟨[], []⟩ "025-alt.jpg"
      = dictGetD ([] : List (String × ℚ)) "025" (1/2) ∧
    infer_dark_threshold ⟨[], []⟩ "025-alt.jpg"
      = infer_dark_threshold ⟨[], []⟩ "025.jpg" :=
  C3_amended_hyphen_by_name ⟨[], []⟩ "025-alt.jpg" "025.jpg"
    (by decide) (by decide) rfl

/-- Helper: the loader loop keeps exactly the well-formed lines and
numbers them consecutively from any starting counter. -/
theorem loadThresholdLines_spec (parseFloat : String → Option ℚ)
    (lines : List String) :
    ∀ ctr : Nat,
      (loadThresholdLines parseFloat ctr lines).by_id
        = ((lines.filter (goodLine parseFloat)).enumFrom ctr).map
            (fun p => (fmt03 p.1, lineScore parseFloat p.2)) ∧
      (loadThresholdLines parseFloat ctr lines).by_name
        = (lines.filter (goodLine parseFloat)).map
            (fun l => (lineName l, lineScore parseFloat l)) := by
  induction lines with
  | nil => intro ctr; simp [loadThresholdLines]
  | cons line rest ih =>
    intro ctr
    rcases hs : splitWS line with _ | ⟨t0, _ | ⟨t1, ts⟩⟩
    · have hg : goodLine parseFloat line = false := by simp [goodLine, hs]
      simpa [loadThresholdLines, hs, hg] using ih ctr
    · have hg : goodLine parseFloat line = false := by simp [goodLine, hs]
      simpa [loadThresholdLines, hs, hg] using ih ctr
    · rcases hp : parseFloat t1 with _ | v
      · have hg : goodLine parseFloat line = false := by simp [goodLine, hs, hp]
        simpa [loadThresholdLines, hs, hp, hg] using ih ctr
      · have hg : goodLine parseFloat line = true := by simp [goodLine, hs, hp]
        have hv : lineScore parseFloat line = v := by simp [lineScore, hs, hp]
        have hn : lineName line = lowerStr t0 := by simp [lineName, hs]
        refine ⟨?_, ?_⟩ <;>
          simp [loadThresholdLines, hs, hp, hg, hv, hn, (ih (ctr + 1)).1,
            (ih (ctr + 1)).2]

/-- Claim C9: the threshold-table loader skips every dataset line that
does not split into at least two whitespace-separated tokens or whose
second token is not parseable as a float, without aborting the parse and
without consuming an id slot; the remaining lines receive id keys from a
sequential 1-based counter in file order, formatted as zero-padded
3-digit strings, independent of any number printed in the line itself,
and name keys from the lowercased first token. -/
theorem C9_loader_sequential_ids (parseFloat : String → Option ℚ)
    (lines : List String) :
    (load_dark_thresholds parseFloat lines).by_id
      = ((lines.filter (goodLine parseFloat)).enumFrom 1).map
          (fun p => (fmt03 p.1, lineScore parseFloat p.2)) ∧
    (load_dark_thresholds parseFloat lines).by_name
      = (lines.filter (goodLine parseFloat)).map
          (fun l => (lineName l, lineScore parseFloat l)) :=
  loadThresholdLines_spec parseFloat lines 1

/-- Claim C6: if the external conversion tool fails (non-zero exit or
OS-level launch failure) during convert of a non-PNG source, convert
removes the temporary file, leaves no temporary file behind in the cache
directory, and returns the original source path unmodified. -/
theorem C6_converter_failure_fallback (env : ConvEnv) (path : String)
    (mtimeNs size : Nat)
    (hpng : lowerStr (pySuffix path) ≠ ".png")
    (hstat : env.stat = some (mtimeNs, size))
    (hmiss : env.targetExists = false)
    (hfail : (∃ msg, env.convRes = .cpe msg) ∨ env.convRes = .osErr) :
    (convert_to_png env path).1 = .ok path ∧
    FsOp.unlinkTmp env.tmpName ∈ (convert_to_png env path).2 ∧
    leftoverTmps (convert_to_png env path).2 = [] := by
  have hc := cached_png_path_of_stat_some env path mtimeNs size hstat
  rcases hfail with ⟨msg, hf⟩ | hf <;>
    simp [convert_to_png, if_neg hpng, hc, hmiss, hf, leftoverTmps]

/-- Witness for C6 at a failing converter on "/imgs/025.jpg". -/
theorem C6_converter_failure_fallback_witness :
    (convert_to_png {sampleEnv with convRes := .cpe "boom"} "/imgs/025.jpg").1
      = .ok "/imgs/025.jpg" ∧
    FsOp.unlinkTmp ({sampleEnv with convRes := .cpe "boom"} : ConvEnv).tmpName
      ∈ (convert_to_png {sampleEnv with convRes := .cpe "boom"} "/imgs/025.jpg").2 ∧
    leftoverTmps (convert_to_png {sampleEnv with convRes := .cpe "boom"} "/imgs/025.jpg").2
      = [] :=
  C6_converter_failure_fallback {sampleEnv with convRes := .cpe "boom"} "/imgs/025.jpg"
    1111 2222 (by decide) rfl rfl (Or.inl ⟨"boom", rfl⟩)

/-- Claim C7: for a non-PNG source whose identity is unchanged, a second
convert call after a successful first conversion returns the same cached
target path without invoking the external converter (the SHA-1-named
target now exists, so it is returned immediately). -/
theorem C7_cache_hit_second_call (env : ConvEnv) (path : String)
    (mtimeNs size : Nat)
    (hpng : lowerStr (pySuffix path) ≠ ".png")
    (hstat : env.stat = some (mtimeNs, size))
    (hmiss : env.targetExists = false)
    (hok : env.convRes = .ok) :
    ∃ target,
      (convert_to_png env path).1 = .ok target ∧
      FsOp.replaceTmpWithTarget env.tmpName target ∈ (convert_to_png env path).2 ∧
      convert_to_png {env with targetExists := true} path
        = (.ok target, [.mkdirCacheRoot, .statSrc, .lookupTarget]) ∧
      invokesConverter (convert_to_png {env with targetExists := true} path).2 = false := by
  have hc := cached_png_path_of_stat_some env path mtimeNs size hstat
  have hc' := cached_png_path_of_stat_some {env with targetExists := true} path
    mtimeNs size (by simpa using hstat)
  refine ⟨cacheRoot env ++ "/"
      ++ env.sha1hex (env.resolved ++ ":" ++ toString mtimeNs ++ ":" ++ toString size)
      ++ ".png", ?_, ?_, ?_, ?_⟩
  · simp [convert_to_png, if_neg hpng, hc, hmiss, hok]
  · simp [convert_to_png, if_neg hpng, hc, hmiss, hok]
  · simp only [convert_to_png, if_neg hpng, hc']
    simp [cacheRoot]
  · simp only [convert_to_png, if_neg hpng, hc']
    simp [invokesConverter]

/-- Witness for C7 at a cold cache on "/imgs/025.jpg". -/
theorem C7_cache_hit_second_call_witness :
    ∃ target,
      (convert_to_png sampleEnv "/imgs/025.jpg").1 = .ok target ∧
      FsOp.replaceTmpWithTarget sampleEnv.tmpName target
        ∈ (convert_to_png sampleEnv "/imgs/025.jpg").2 ∧
      convert_to_png {sampleEnv with targetExists := true} "/imgs/025.jpg"
        = (.ok target, [.mkdirCacheRoot, .statSrc, .lookupTarget]) ∧
      invokesConverter
        (convert_to_png {sampleEnv with targetExists := true} "/imgs/025.jpg").2 = false :=
  C7_cache_hit_second_call sampleEnv "/imgs/025.jpg" 1111 2222 (by decide) rfl rfl rfl

/-- Claim C10: for every non-PNG path whose source file does not exist,
convert raises the stat's FileNotFoundError unhandled (the cache-key
computation stats the source outside any error handling) instead of
falling back to the original path. -/
theorem C10_missing_source_raises (env : ConvEnv) (path : String)
    (hpng : lowerStr (pySuffix path) ≠ ".png") (hmiss : env.stat = none) :
    convert_to_png env path = (.error .fileNotFound, [.mkdirCacheRoot, .statSrc]) := by
  unfold convert_to_png
  rw [if_neg hpng, cached_png_path_of_stat_none env path hmiss]

/-- Witness for C10 at a missing "/imgs/025.jpg". -/
theorem C10_missing_source_raises_witness :
    lowerStr (pySuffix "/imgs/025.jpg") ≠ ".png" ∧
    ({sampleEnv with stat := none} : ConvEnv).stat = none ∧
    convert_to_png {sampleEnv with stat := none} "/imgs/025.jpg"
      = (.error .fileNotFound, [.mkdirCacheRoot, .statSrc]) :=
  ⟨by decide, rfl,
   C10_missing_source_raises {sampleEnv with stat := none} "/imgs/025.jpg"
     (by decide) rfl⟩

end Kitty
